import Mathlib

/-!
Verification of the sentinel update-detection pipeline.

This file gives a shallow embedding, in Lean 4, of the core of the
repository: the comparison policy shared by all handler variants
(src/handlers/base_handler.py), the orchestrator check operation
(src/core/sentinel.py), the state manager (src/core/state_manager.py),
the date normalizer (src/utils/date_parser.py), the MetadataAPI handler
fetch (src/handlers/api_handler.py), the selenium handler extraction
(src/handlers/selenium_handler.py) and the Groq verifier
(src/utils/groq_verifier.py), and proves or refutes the frozen claims
about them.

Conventions used throughout the embedding:
- Python datetime objects are modelled by the structure DateTime below
  (naive instants, as produced by datetime.fromtimestamp and
  datetime.strptime in this code base; timezone-aware values do not
  occur on the modelled paths).
- Python None / values of Optional type are modelled with Option.
- Python exceptions are modelled with Except PyErr; a try/except block
  becomes a match on the Except value that catches exactly the listed
  exception classes.
- External effects (HTTP requests, the browser, the LLM service) are
  modelled by explicit environment values passed to the embedded
  functions; the embedded function is the pure part of the source
  function, parameterized by every possible outcome of its external
  calls.
-/

namespace Sentinel

/-- Python exception classes that occur in the modelled code. -/
inductive PyErr where
  | valueError
  | osError
  | overflowError
  | typeError
  | requestException (msg : String)
  deriving DecidableEq, Repr

/-- Model of a naive Python datetime: year, month, day, hour, minute,
second, microsecond.  Validity (the constraints enforced by the
datetime constructor) is a separate predicate, `validDate`. -/
structure DateTime where
  year : Nat
  month : Nat
  day : Nat
  hour : Nat
  minute : Nat
  second : Nat
  usec : Nat
  deriving DecidableEq, Repr

/-- Number of days in a month, following the proleptic Gregorian
calendar used by Python datetime. -/
def daysInMonth (y m : Nat) : Nat :=
  if m = 2 then
    if y % 4 = 0 ∧ (y % 100 ≠ 0 ∨ y % 400 = 0) then 29 else 28
  else if m = 4 ∨ m = 6 ∨ m = 9 ∨ m = 11 then 30
  else 31

/-- The constraints checked by the Python datetime constructor
(MINYEAR = 1, MAXYEAR = 9999). -/
def validDate (y mo d h mi s us : Nat) : Bool :=
  decide (1 ≤ y) && decide (y ≤ 9999) &&
  decide (1 ≤ mo) && decide (mo ≤ 12) &&
  decide (1 ≤ d) && decide (d ≤ daysInMonth y mo) &&
  decide (h ≤ 23) && decide (mi ≤ 59) && decide (s ≤ 59) &&
  decide (us ≤ 999999)

/-- `validDate` on a packaged DateTime value. -/
def DateTime.valid (t : DateTime) : Bool :=
  validDate t.year t.month t.day t.hour t.minute t.second t.usec

/-- Python datetime comparison is lexicographic on
(year, month, day, hour, minute, second, microsecond).
`DateTime.ltb a b` models the Python expression `a < b`. -/
def DateTime.ltb (a b : DateTime) : Bool :=
  if a.year ≠ b.year then decide (a.year < b.year)
  else if a.month ≠ b.month then decide (a.month < b.month)
  else if a.day ≠ b.day then decide (a.day < b.day)
  else if a.hour ≠ b.hour then decide (a.hour < b.hour)
  else if a.minute ≠ b.minute then decide (a.minute < b.minute)
  else if a.second ≠ b.second then decide (a.second < b.second)
  else decide (a.usec < b.usec)

theorem DateTime.ltb_irrefl (a : DateTime) : DateTime.ltb a a = false := by
  simp [DateTime.ltb]

/-! ## Decimal digit strings

Helpers shared by the embeddings of datetime.isoformat,
datetime.fromisoformat and the regex character class for digits. -/

/-- The ten ASCII digit characters, indexed by value (values ≥ 9 all
map to the digit 9; callers only use values < 10). -/
def digitToChar (n : Nat) : Char :=
  match n with
  | 0 => '0' | 1 => '1' | 2 => '2' | 3 => '3' | 4 => '4'
  | 5 => '5' | 6 => '6' | 7 => '7' | 8 => '8' | _ => '9'

/-- Numeric value of an ASCII digit character. -/
def charToDigit (c : Char) : Nat := c.toNat - 48

/-- ASCII digit test: models the regex class for a digit on ASCII
input. -/
def isDig (c : Char) : Bool := decide (48 ≤ c.toNat) && decide (c.toNat ≤ 57)

/-- Fixed-width zero-padded decimal rendering, big-endian: exactly `k`
characters, the base-10 digits of `n mod 10 ^ k`.  For `n < 10 ^ k`
this is the zero-padded decimal form of `n`, as produced by the
fixed-width fields of datetime.isoformat. -/
def natDigitsPad : Nat → Nat → List Char
  | 0, _ => []
  | k + 1, n => natDigitsPad k (n / 10) ++ [digitToChar (n % 10)]

/-- Numeric value of a big-endian digit string. -/
def readDigits (l : List Char) : Nat :=
  l.foldl (fun acc c => 10 * acc + charToDigit c) 0

/-- All characters of the list are ASCII digits. -/
def allDig (l : List Char) : Bool := l.all isDig

theorem charToDigit_digitToChar {d : Nat} (h : d < 10) :
    charToDigit (digitToChar d) = d := by
  interval_cases d <;> rfl

theorem isDig_digitToChar {d : Nat} (h : d < 10) :
    isDig (digitToChar d) = true := by
  interval_cases d <;> rfl

theorem length_natDigitsPad (k n : Nat) : (natDigitsPad k n).length = k := by
  induction k generalizing n with
  | zero => rfl
  | succ k ih => simp [natDigitsPad, ih]

theorem allDig_natDigitsPad (k n : Nat) : allDig (natDigitsPad k n) = true := by
  induction k generalizing n with
  | zero => rfl
  | succ k ih =>
    simp only [natDigitsPad, allDig, List.all_append, List.all_cons, List.all_nil]
    simp only [allDig] at ih
    simp [ih, isDig_digitToChar (Nat.mod_lt n (by norm_num))]

theorem readDigits_append_singleton (l : List Char) (c : Char) :
    readDigits (l ++ [c]) = 10 * readDigits l + charToDigit c := by
  simp [readDigits, List.foldl_append]

theorem readDigits_natDigitsPad {k n : Nat} (h : n < 10 ^ k) :
    readDigits (natDigitsPad k n) = n := by
  induction k generalizing n with
  | zero =>
    simp only [pow_zero, Nat.lt_one_iff] at h
    simp [h, natDigitsPad, readDigits]
  | succ k ih =>
    have hdiv : n / 10 < 10 ^ k := by
      rw [Nat.div_lt_iff_lt_mul (by norm_num)]
      calc n < 10 ^ (k + 1) := h
        _ = 10 ^ k * 10 := by ring
    rw [natDigitsPad, readDigits_append_singleton, ih hdiv,
      charToDigit_digitToChar (Nat.mod_lt n (by norm_num))]
    omega

theorem natDigitsPad_ne_nil {k n : Nat} (h : 0 < k) : natDigitsPad k n ≠ [] := by
  intro hcontra
  have := length_natDigitsPad k n
  rw [hcontra] at this
  simp at this
  omega

theorem digitToChar_mem_range {c : Char} (h : isDig c = true) :
    48 ≤ c.toNat ∧ c.toNat ≤ 57 := by
  simp only [isDig, Bool.and_eq_true, decide_eq_true_eq] at h
  exact h

/-- BaseHandler.compare_with_stored (src/handlers/base_handler.py,
lines 54-73), the change-comparison policy inherited unchanged by every
handler variant:

  if current is None: return False
  if stored is None: return True
  return current > stored
-/
def compareWithStored (current stored : Option DateTime) : Bool :=
  match current with
  | none => false
  | some c =>
    match stored with
    | none => true
    | some s => DateTime.ltb s c

/-! ## datetime.isoformat and datetime.fromisoformat

StateManager serializes stored timestamps with datetime.isoformat and
reads them back with datetime.fromisoformat (after replacing a literal
Z suffix).  For the naive instants produced in this code base,
isoformat prints YYYY-MM-DDTHH:MM:SS, followed by .ffffff exactly when
the microsecond field is nonzero.  `fromIsoChars` models the fragment
of datetime.fromisoformat that covers this grammar (the function also
validates the fields, since it constructs a datetime). -/

/-- datetime.isoformat for a naive instant, as a character list. -/
def toIsoChars (t : DateTime) : List Char :=
  natDigitsPad 4 t.year ++ '-' ::
    (natDigitsPad 2 t.month ++ '-' ::
      (natDigitsPad 2 t.day ++ 'T' ::
        (natDigitsPad 2 t.hour ++ ':' ::
          (natDigitsPad 2 t.minute ++ ':' ::
            (natDigitsPad 2 t.second ++
              (if t.usec = 0 then [] else '.' :: natDigitsPad 6 t.usec))))))

/-- datetime.isoformat as a String. -/
def toIso (t : DateTime) : String := ⟨toIsoChars t⟩

/-- Read a fixed-width all-digit field off the front of the input. -/
def splitField (k : Nat) (l : List Char) : Option (Nat × List Char) :=
  if (l.take k).length = k ∧ allDig (l.take k) then
    some (readDigits (l.take k), l.drop k)
  else none

/-- Require a given separator character at the head of the input. -/
def expectChar (c : Char) : List Char → Option (List Char)
  | x :: rest => if x = c then some rest else none
  | [] => none

/-- After the six mandatory fields, the tail of an isoformat string is
either empty or a dot followed by the six microsecond digits. -/
def fromIsoTail (y mo d h mi s : Nat) : List Char → Option DateTime
  | [] => if validDate y mo d h mi s 0 then some ⟨y, mo, d, h, mi, s, 0⟩ else none
  | '.' :: rest =>
    match splitField 6 rest with
    | some (us, []) =>
      if validDate y mo d h mi s us then some ⟨y, mo, d, h, mi, s, us⟩ else none
    | _ => none
  | _ => none

/-- datetime.fromisoformat restricted to the grammar emitted by
`toIsoChars`; returns none where CPython would raise ValueError. -/
def fromIsoChars (l : List Char) : Option DateTime :=
  match splitField 4 l with
  | none => none
  | some (y, l) =>
  match expectChar '-' l with
  | none => none
  | some l =>
  match splitField 2 l with
  | none => none
  | some (mo, l) =>
  match expectChar '-' l with
  | none => none
  | some l =>
  match splitField 2 l with
  | none => none
  | some (d, l) =>
  match expectChar 'T' l with
  | none => none
  | some l =>
  match splitField 2 l with
  | none => none
  | some (h, l) =>
  match expectChar ':' l with
  | none => none
  | some l =>
  match splitField 2 l with
  | none => none
  | some (mi, l) =>
  match expectChar ':' l with
  | none => none
  | some l =>
  match splitField 2 l with
  | none => none
  | some (s, l) => fromIsoTail y mo d h mi s l

/-- datetime.fromisoformat on a String (ValueError becomes none, as in
StateManager.get_last_timestamp). -/
def fromIso (s : String) : Option DateTime := fromIsoChars s.data

theorem splitField_natDigitsPad {k n : Nat} (hk : n < 10 ^ k) (rest : List Char) :
    splitField k (natDigitsPad k n ++ rest) = some (n, rest) := by
  have hlen : (natDigitsPad k n).length = k := length_natDigitsPad k n
  rw [splitField, List.take_append_of_le_length (by omega), List.drop_append_of_le_length (by omega)]
  rw [List.take_of_length_le (by omega), List.drop_of_length_le (by omega)]
  simp [hlen, allDig_natDigitsPad, readDigits_natDigitsPad hk]

theorem expectChar_cons (c : Char) (rest : List Char) :
    expectChar c (c :: rest) = some rest := by
  simp [expectChar]

theorem daysInMonth_le (y m : Nat) : daysInMonth y m ≤ 31 := by
  unfold daysInMonth
  split <;> [split; split] <;> omega

theorem validDate_bounds {y mo d h mi s us : Nat}
    (hv : validDate y mo d h mi s us = true) :
    y < 10 ^ 4 ∧ mo < 10 ^ 2 ∧ d < 10 ^ 2 ∧ h < 10 ^ 2 ∧ mi < 10 ^ 2 ∧
      s < 10 ^ 2 ∧ us < 10 ^ 6 := by
  simp only [validDate, Bool.and_eq_true, decide_eq_true_eq] at hv
  have := daysInMonth_le y mo
  norm_num
  omega

/-- Round trip: parsing the isoformat output of a valid instant
recovers the instant. -/
theorem fromIsoChars_toIsoChars {t : DateTime} (hv : t.valid = true) :
    fromIsoChars (toIsoChars t) = some t := by
  obtain ⟨hy, hmo, hd, hh, hmi, hs, hus⟩ := validDate_bounds hv
  have hvd : validDate t.year t.month t.day t.hour t.minute t.second t.usec = true := hv
  rw [toIsoChars, fromIsoChars]
  simp only [splitField_natDigitsPad hy, splitField_natDigitsPad hmo,
    splitField_natDigitsPad hd, splitField_natDigitsPad hh,
    splitField_natDigitsPad hmi, splitField_natDigitsPad hs, expectChar_cons]
  by_cases hzero : t.usec = 0
  · rw [if_pos hzero, fromIsoTail]
    rw [← hzero]
    rw [if_pos hvd]
  · rw [if_neg hzero]
    have h6 : splitField 6 (natDigitsPad 6 t.usec ++ []) = some (t.usec, []) :=
      splitField_natDigitsPad hus []
    rw [List.append_nil] at h6
    rw [fromIsoTail]
    simp only [h6, if_pos hvd]

/-- The replace of a literal Z by +00:00 that
StateManager.get_last_timestamp applies before parsing. -/
def replaceZChars (l : List Char) : List Char :=
  l.flatMap fun c => if c = 'Z' then ['+', '0', '0', ':', '0', '0'] else [c]

theorem digitChar_ne_Z {c : Char} (h : isDig c = true) : c ≠ 'Z' := by
  obtain ⟨h1, h2⟩ := digitToChar_mem_range h
  intro hc
  rw [hc] at h2
  exact absurd h2 (by decide)

theorem replaceZChars_append (a b : List Char) :
    replaceZChars (a ++ b) = replaceZChars a ++ replaceZChars b := by
  simp [replaceZChars]

theorem replaceZChars_cons_ne {c : Char} (h : c ≠ 'Z') (l : List Char) :
    replaceZChars (c :: l) = c :: replaceZChars l := by
  simp [replaceZChars, h]

theorem replaceZChars_allDig {l : List Char} (h : allDig l = true) :
    replaceZChars l = l := by
  induction l with
  | nil => rfl
  | cons x xs ih =>
    simp only [allDig, List.all_cons, Bool.and_eq_true] at h
    rw [replaceZChars_cons_ne (digitChar_ne_Z h.1)]
    rw [ih (by simp [allDig, h.2])]

theorem replaceZChars_natDigitsPad (k n : Nat) :
    replaceZChars (natDigitsPad k n) = natDigitsPad k n :=
  replaceZChars_allDig (allDig_natDigitsPad k n)

/-- The isoformat output of an instant never contains a Z, so the
Z-replacement in StateManager.get_last_timestamp leaves it unchanged. -/
theorem replaceZChars_toIsoChars (t : DateTime) :
    replaceZChars (toIsoChars t) = toIsoChars t := by
  have hdash : ('-' : Char) ≠ 'Z' := by decide
  have hcolon : (':' : Char) ≠ 'Z' := by decide
  have hT : ('T' : Char) ≠ 'Z' := by decide
  have hdot : ('.' : Char) ≠ 'Z' := by decide
  rw [toIsoChars]
  by_cases hz : t.usec = 0
  · rw [if_pos hz]
    simp only [List.append_nil, replaceZChars_append,
      replaceZChars_cons_ne hdash, replaceZChars_cons_ne hcolon,
      replaceZChars_cons_ne hT, replaceZChars_natDigitsPad]
  · rw [if_neg hz]
    simp only [replaceZChars_append, replaceZChars_cons_ne hdash,
      replaceZChars_cons_ne hcolon, replaceZChars_cons_ne hT,
      replaceZChars_cons_ne hdot, replaceZChars_natDigitsPad]

theorem toIsoChars_ne_nil (t : DateTime) : toIsoChars t ≠ [] := by
  rw [toIsoChars]
  intro h
  have h4 := natDigitsPad_ne_nil (n := t.year) (k := 4) (by norm_num)
  rw [List.append_eq_nil] at h
  exact h4 h.1

/-! ## StateManager (src/core/state_manager.py)

The in-memory state is a Python dict mapping a source id (dcid) to a
per-source dict with keys timestamp, last_check, raw_value, etag.  The
per-source dict is modelled by `SourceState` (a missing key is none)
and the outer dict by an association list with dict lookup semantics.
Every mutating operation also rewrites the on-disk snapshot
(_save_state); the snapshot is a serialization of the in-memory dict,
and a failed save leaves the in-memory dict authoritative, so the
claims below are stated over the in-memory map. -/

/-- One entry of the persisted state document. -/
structure SourceState where
  timestamp : Option String := none
  last_check : Option String := none
  raw_value : Option String := none
  etag : Option String := none
  deriving DecidableEq, Repr

/-- The state dict: source id to SourceState. -/
abbrev StateMap := List (String × SourceState)

/-- Python dict lookup (self._state.get(dcid)). -/
def lookupState : StateMap → String → Option SourceState
  | [], _ => none
  | (k, v) :: rest, dcid => if k = dcid then some v else lookupState rest dcid

/-- Python dict key deletion (del self._state[dcid], a no-op when the
key is absent, matching the guarded del in clear_state). -/
def eraseState (st : StateMap) (dcid : String) : StateMap :=
  st.filter fun p => p.1 ≠ dcid

/-- Python dict key assignment (self._state[dcid] = entry). -/
def setState (st : StateMap) (dcid : String) (v : SourceState) : StateMap :=
  (dcid, v) :: eraseState st dcid

/-- StateManager.get_last_timestamp (src/core/state_manager.py, lines
51-71): read the entry (default empty dict), take its timestamp string;
a missing or falsy (empty) string gives none; otherwise parse with
datetime.fromisoformat after replacing Z with +00:00, ValueError
giving none. -/
def getLastTimestamp (st : StateMap) (dcid : String) : Option DateTime :=
  match ((lookupState st dcid).getD {}).timestamp with
  | none => none
  | some ts => if ts.data = [] then none else fromIsoChars (replaceZChars ts.data)

/-- StateManager.update_timestamp (src/core/state_manager.py, lines
73-101): upsert the entry, set timestamp to isoformat of the new value
and last_check to isoformat of the current instant, and merge raw_value
and etag only when they are truthy (non-None, non-empty). -/
def updateTimestamp (st : StateMap) (dcid : String) (t : DateTime)
    (rawValue etagValue : Option String) (now : DateTime) : StateMap :=
  let entry := (lookupState st dcid).getD {}
  let entry := { entry with timestamp := some (toIso t), last_check := some (toIso now) }
  let entry := match rawValue with
    | some r => if r.data = [] then entry else { entry with raw_value := some r }
    | none => entry
  let entry := match etagValue with
    | some e => if e.data = [] then entry else { entry with etag := some e }
    | none => entry
  setState st dcid entry

/-- StateManager.clear_state (src/core/state_manager.py, lines
113-118). -/
def clearState (st : StateMap) (dcid : String) : StateMap :=
  eraseState st dcid

theorem lookupState_setState_self (st : StateMap) (dcid : String) (v : SourceState) :
    lookupState (setState st dcid v) dcid = some v := by
  simp [setState, lookupState]

theorem lookupState_eraseState_self (st : StateMap) (dcid : String) :
    lookupState (eraseState st dcid) dcid = none := by
  induction st with
  | nil => rfl
  | cons p rest ih =>
    by_cases h : p.1 = dcid
    · simpa [eraseState, List.filter, h] using ih
    · simpa [eraseState, List.filter, h, lookupState] using ih

/-- The entry written by updateTimestamp always carries the isoformat
of the new instant in its timestamp field, whatever the raw_value and
etag arguments are. -/
theorem updateTimestamp_timestamp (st : StateMap) (dcid : String) (t : DateTime)
    (rawValue etagValue : Option String) (now : DateTime) :
    ((lookupState (updateTimestamp st dcid t rawValue etagValue now) dcid).getD {}).timestamp
      = some (toIso t) := by
  rw [updateTimestamp.eq_def]
  cases rawValue <;> cases etagValue <;>
    simp only [lookupState_setState_self, Option.getD_some] <;>
    split <;> try split
  all_goals rfl

/-! ## Exact numbers

Python numeric values reaching the timestamp conversions (floats from
float(), JSON numbers) are modelled as exact unnormalized rationals
`PyRat` (an integer numerator over a positive denominator, kept as
plain integers so that everything evaluates by kernel reduction).
Binary floating-point rounding is not modelled; every concrete value
used in this development is exactly representable as a double. -/

/-- An exact rational with explicit positive denominator. -/
structure PyRat where
  num : Int
  den : Nat
  deriving DecidableEq, Repr

/-- The integer n as a PyRat. -/
def PyRat.ofInt (n : Int) : PyRat := ⟨n, 1⟩

/-- q < n for an integer bound. -/
def PyRat.ltInt (q : PyRat) (n : Int) : Bool := decide (q.num < n * q.den)

/-- n < q for an integer bound. -/
def PyRat.gtInt (q : PyRat) (n : Int) : Bool := decide (n * q.den < q.num)

/-- Division of the value by a positive natural. -/
def PyRat.divNat (q : PyRat) (k : Nat) : PyRat := ⟨q.num, q.den * k⟩

/-- Floor of the value. -/
def PyRat.floorInt (q : PyRat) : Int := q.num.fdiv q.den

/-! ## datetime.fromtimestamp

Model of Python datetime.fromtimestamp on a 64-bit Linux CPython:
- a timestamp outside the range of the C time_t conversion raises
  OverflowError (documented behaviour of fromtimestamp);
- a timestamp whose calendar year falls outside 1..9999 raises
  ValueError from the datetime constructor;
- otherwise the Gregorian calendar fields are computed.  The local
  timezone used by the naive fromtimestamp is modelled as UTC, and the
  fractional part is truncated to microseconds (CPython rounds
  half-even; all inputs in this development have integral seconds, on
  which the two agree). -/

/-- Days-to-civil conversion for the proleptic Gregorian calendar
(standard era-based algorithm); input is days since 1970-01-01. -/
def civilFromDays (z0 : Int) : Int × Nat × Nat :=
  let z := z0 + 719468
  let era : Int := z.ediv 146097
  let doe : Int := z - era * 146097
  let yoe : Int := (doe - doe.ediv 1460 + doe.ediv 36524 - doe.ediv 146096).ediv 365
  let y : Int := yoe + era * 400
  let doy : Int := doe - (365 * yoe + yoe.ediv 4 - yoe.ediv 100)
  let mp : Int := (5 * doy + 2).ediv 153
  let d : Int := doy - (153 * mp + 2).ediv 5 + 1
  let m : Int := mp + (if mp < 10 then 3 else -9)
  (y + (if m ≤ 2 then 1 else 0), m.toNat, d.toNat)

/-- Calendar fields of an epoch instant (seconds since
1970-01-01T00:00:00 UTC, as an exact rational). -/
def epochToDateTime (q : PyRat) : DateTime :=
  let totalSec : Int := q.floorInt
  let days : Int := totalSec.ediv 86400
  let sod : Int := totalSec - days * 86400
  let ymd := civilFromDays days
  let us : Nat := (((q.num - totalSec * q.den) * 1000000).fdiv q.den).toNat
  ⟨ymd.1.toNat, ymd.2.1, ymd.2.2,
    (sod.ediv 3600).toNat, ((sod.ediv 60).emod 60).toNat, (sod.emod 60).toNat, us⟩

/-- Smallest epoch value with calendar year 1
(0001-01-01T00:00:00 UTC). -/
def epochMinInt : Int := -62135596800

/-- The value exceeds every epoch instant within calendar year 9999:
9999-12-31T23:59:59.999999 UTC is 253402300799.999999, so
epochMaxLt q decides 253402300799999999 / 10 ^ 6 < q. -/
def epochMaxLt (q : PyRat) : Bool :=
  decide ((253402300799999999 : Int) * q.den < q.num * 1000000)

/-- datetime.fromtimestamp with its documented failure modes.  Checked
against CPython on 64-bit Linux: values at or beyond 2^63 raise
OverflowError; values inside the time_t range whose year falls outside
1..9999 raise ValueError (gigantic ones OSError from the C call; the
two are collapsed to valueError here, since every caller of this
conversion in the code base catches both or neither). -/
def pyFromtimestamp (q : PyRat) : Except PyErr DateTime :=
  if q.ltInt (-(2 ^ 63)) || !q.ltInt (2 ^ 63) then .error .overflowError
  else if q.ltInt epochMinInt || epochMaxLt q then .error .valueError
  else .ok (epochToDateTime q)

/-! ## DateParser._try_unix_timestamp (src/utils/date_parser.py, lines
113-131) -/

/-- re.sub removing every character that is not an ASCII digit or a
dot (the regex class is modelled on ASCII input). -/
def keepDigitsDots (l : List Char) : List Char :=
  l.filter fun c => isDig c || c = '.'

/-- Split a character list on a separator character (Python
str.split(sep) semantics: n separators give n+1 parts). -/
def splitOnChar (sep : Char) : List Char → List (List Char)
  | [] => [[]]
  | c :: rest =>
    let r := splitOnChar sep rest
    if c = sep then [] :: r
    else
      match r with
      | h :: t => (c :: h) :: t
      | [] => [[c]]

/-- Python float() restricted to strings of digits and dots (the only
inputs it receives after the sub above): at most one dot and at least
one digit, otherwise ValueError (none). -/
def pyFloatDigits (l : List Char) : Option PyRat :=
  match splitOnChar '.' l with
  | [ip] => if ip = [] then none else some ⟨readDigits ip, 1⟩
  | [ip, fp] =>
    if ip = [] ∧ fp = [] then none
    else some ⟨readDigits ip * 10 ^ fp.length + readDigits fp, 10 ^ fp.length⟩
  | _ => none

/-- DateParser._try_unix_timestamp: keep digits and dots; empty result
or float() failure gives none; a value above 1e12 is taken as epoch
milliseconds, above 1e9 as epoch seconds, otherwise rejected; every
exception of the conversion (ValueError, OSError, OverflowError) is
caught and becomes none. -/
def tryUnixTimestamp (s : String) : Option DateTime :=
  let numeric := keepDigitsDots s.data
  if numeric = [] then none
  else
    match pyFloatDigits numeric with
    | none => none
    | some value =>
      if value.gtInt (10 ^ 12) then
        match pyFromtimestamp (value.divNat 1000) with
        | .ok dt => some dt
        | .error _ => none
      else if value.gtInt (10 ^ 9) then
        match pyFromtimestamp value with
        | .ok dt => some dt
        | .error _ => none
      else none

/-! ## DateParser (src/utils/date_parser.py)

DateParser.parse cleans the string, tries the optional dateutil
parser (imported inside try/except ImportError; the model takes the
dependency as absent, i.e. the except branch), then the DATE_FORMATS
list via datetime.strptime, then the unix-timestamp fallback.  The
strptime engine below reproduces the compiled regexes of CPython
_strptime: bounded alternations per numeric field, ordered
alternatives, full backtracking, case-insensitive matching, and a
whitespace run for every whitespace in the format. -/

/-- ASCII lowercase conversion (re.IGNORECASE on ASCII input). -/
def toLowerChar (c : Char) : Char :=
  if 65 ≤ c.toNat ∧ c.toNat ≤ 90 then Char.ofNat (c.toNat + 32) else c

/-- Python str.split() whitespace (ASCII fragment). -/
def isPySpace (c : Char) : Bool :=
  c = ' ' || c = '\t' || c = '\n' || c = '\r' || c = '\x0b' || c = '\x0c'

/-- Words of a string under str.split(): maximal nonempty runs of
non-whitespace (the accumulator carries the current run reversed). -/
def pyWords : List Char → List Char → List (List Char)
  | [], acc => if acc = [] then [] else [acc.reverse]
  | c :: rest, acc =>
    if isPySpace c then
      if acc = [] then pyWords rest [] else acc.reverse :: pyWords rest []
    else pyWords rest (c :: acc)

/-- The whitespace collapse of _clean_date_string:
a space-join of s.split(). -/
def collapseWhite (l : List Char) : List Char :=
  List.intercalate [' '] (pyWords l [])

/-- Case-insensitive literal match (the pattern is given lowercase);
returns the input past the literal. -/
def matchCI : List Char → List Char → Option (List Char)
  | [], l => some l
  | p :: ps, c :: cs => if toLowerChar c = p then matchCI ps cs else none
  | _ :: _, [] => none

/-- One optional space: the residue of a greedy regex whitespace-star
on input already collapsed to single spaces. -/
def skipOptSpace : List Char → List Char
  | ' ' :: rest => rest
  | l => l

/-- Optional colon or hyphen. -/
def skipOptColonDash : List Char → List Char
  | ':' :: rest => rest
  | '-' :: rest => rest
  | l => l

/-- The common separator tail of every label pattern, a star of
whitespace, an optional colon or hyphen, a star of whitespace.  The
label regexes run on the collapsed string, so each whitespace star
matches at most one space. -/
def stripLabelSep (l : List Char) : List Char :=
  skipOptSpace (skipOptColonDash (skipOptSpace l))

/-- The anchored label pattern Last, whitespace, Updated or Modified,
then the separator tail; on no match the input is unchanged (re.sub
with an unmatched anchored pattern). -/
def stripLabelLast (l : List Char) : List Char :=
  match matchCI "last".data l with
  | none => l
  | some r1 =>
    match r1 with
    | ' ' :: r2 =>
      match matchCI "updated".data r2 with
      | some r3 => stripLabelSep r3
      | none =>
        match matchCI "modified".data r2 with
        | some r3 => stripLabelSep r3
        | none => l
    | _ => l

/-- An anchored single-word label pattern followed by the separator
tail. -/
def stripLabelWord (w : List Char) (l : List Char) : List Char :=
  match matchCI w l with
  | some r => stripLabelSep r
  | none => l

/-- The anchored label pattern As, whitespace, of, separator tail. -/
def stripLabelAsOf (l : List Char) : List Char :=
  match matchCI "as".data l with
  | none => l
  | some r1 =>
    match r1 with
    | ' ' :: r2 =>
      match matchCI "of".data r2 with
      | some r3 => stripLabelSep r3
      | none => l
    | _ => l

/-- The timezone abbreviations removed (case-sensitively) from the end
of the string. -/
def tzAbbrs : List (List Char) :=
  ["EST".data, "EDT".data, "PST".data, "PDT".data,
   "CST".data, "CDT".data, "MST".data, "MDT".data]

/-- Remove a trailing timezone abbreviation and the optional space
before it (the regex whitespace stars around the abbreviation, on a
collapsed string with no trailing whitespace). -/
def dropTZSuffix (l : List Char) : List Char :=
  match tzAbbrs.findSome? (fun a =>
    if List.isSuffixOf a l then some (l.take (l.length - a.length)) else none) with
  | some pre =>
    match pre.reverse with
    | ' ' :: r => r.reverse
    | _ => pre
  | none => l

/-- Python str.strip() (ASCII whitespace fragment). -/
def stripEnds (l : List Char) : List Char :=
  ((l.dropWhile isPySpace).reverse.dropWhile isPySpace).reverse

/-- DateParser._clean_date_string (src/utils/date_parser.py, lines
92-111): collapse whitespace, strip the five anchored label prefixes
in order, drop a trailing timezone abbreviation, strip. -/
def cleanDateString (l : List Char) : List Char :=
  let l := collapseWhite l
  let l := stripLabelLast l
  let l := stripLabelWord "updated".data l
  let l := stripLabelWord "modified".data l
  let l := stripLabelWord "date".data l
  let l := stripLabelAsOf l
  stripEnds (dropTZSuffix l)

/-- The numeric fields a strptime format can set. -/
inductive TField where
  | fY | fmo | fd | fH | fMi | fS
  deriving DecidableEq, Repr

/-- The partially collected fields during a strptime match. -/
structure PDT where
  y : Option Nat := none
  mo : Option Nat := none
  d : Option Nat := none
  h : Option Nat := none
  mi : Option Nat := none
  s : Option Nat := none
  us : Option Nat := none
  deriving Repr

/-- Record a matched numeric field. -/
def PDT.set (p : PDT) (f : TField) (v : Nat) : PDT :=
  match f with
  | .fY => { p with y := some v }
  | .fmo => { p with mo := some v }
  | .fd => { p with d := some v }
  | .fH => { p with h := some v }
  | .fMi => { p with mi := some v }
  | .fS => { p with s := some v }

/-- A bounded numeric alternative of a CPython _strptime field regex:
two digits each within a range, or one digit within a range. -/
inductive DigitAlt where
  | two (lo1 hi1 lo2 hi2 : Nat)
  | one (lo hi : Nat)

/-- Value of an ASCII digit, none otherwise. -/
def digitVal (c : Char) : Option Nat :=
  if isDig c then some (charToDigit c) else none

/-- Match one alternative at the front of the input. -/
def matchDigitAlt : DigitAlt → List Char → Option (Nat × List Char)
  | .two lo1 hi1 lo2 hi2, c1 :: c2 :: rest =>
    (match digitVal c1, digitVal c2 with
     | some d1, some d2 =>
       if lo1 ≤ d1 ∧ d1 ≤ hi1 ∧ lo2 ≤ d2 ∧ d2 ≤ hi2 then some (10 * d1 + d2, rest)
       else none
     | _, _ => none)
  | .one lo hi, c :: rest =>
    (match digitVal c with
     | some d => if lo ≤ d ∧ d ≤ hi then some (d, rest) else none
     | none => none)
  | _, _ => none

/-- The CPython _strptime regexes per field, alternatives in source
order: %m is 1[0-2], 0[1-9], [1-9]; %d is 3[01], [12] digit, 0[1-9],
[1-9]; %H is 2[0-3], [0-1] digit, digit; %M is [0-5] digit, digit;
%S is 6[0-1], [0-5] digit, digit.  %Y has its own four-digit token. -/
def altsFor : TField → List DigitAlt
  | .fY => []
  | .fmo => [.two 1 1 0 2, .two 0 0 1 9, .one 1 9]
  | .fd => [.two 3 3 0 1, .two 1 2 0 9, .two 0 0 1 9, .one 1 9]
  | .fH => [.two 2 2 0 3, .two 0 1 0 9, .one 0 9]
  | .fMi => [.two 0 5 0 9, .one 0 9]
  | .fS => [.two 6 6 0 1, .two 0 5 0 9, .one 0 9]

/-- Month names with their numbers, full forms, listed longest first
as _strptime compiles its alternation. -/
def monthsFull : List (List Char × Nat) :=
  [("september".data, 9), ("november".data, 11), ("december".data, 12),
   ("february".data, 2), ("january".data, 1), ("october".data, 10),
   ("august".data, 8), ("april".data, 4), ("march".data, 3),
   ("june".data, 6), ("july".data, 7), ("may".data, 5)]

/-- Month abbreviations with their numbers. -/
def monthsAbbr : List (List Char × Nat) :=
  [("jan".data, 1), ("feb".data, 2), ("mar".data, 3), ("apr".data, 4),
   ("may".data, 5), ("jun".data, 6), ("jul".data, 7), ("aug".data, 8),
   ("sep".data, 9), ("oct".data, 10), ("nov".data, 11), ("dec".data, 12)]

/-- Weekday abbreviations (the matched day is not used by strptime for
the constructed datetime and is not cross-checked against the date). -/
def weekdayAbbrs : List (List Char) :=
  ["mon".data, "tue".data, "wed".data, "thu".data, "fri".data,
   "sat".data, "sun".data]

/-- Timezone names matched by a %Z field: utc and gmt plus the local
tz names, which on a UTC-configured host add nothing. -/
def tzNames : List (List Char) := ["utc".data, "gmt".data]

/-- One token of a compiled strptime format. -/
inductive FTok where
  | lit (c : Char)
  | ws
  | year4
  | num (f : TField)
  | frac
  | monFull
  | monAbbr
  | wday
  | tzn

/-- The recursive-descent matcher for a compiled format.  Ordered
alternatives with full continuation backtracking reproduce the
leftmost semantics of the compiled regex; the whitespace run is
matched greedily, which is equivalent since no other token can match
whitespace; the final empty-input check is the full-consumption check
of strptime. -/
def matchToks : List FTok → List Char → PDT → Option PDT
  | [], l, p => if l = [] then some p else none
  | .lit ch :: toks, l, p =>
    (match l with
     | c :: rest => if toLowerChar c = toLowerChar ch then matchToks toks rest p else none
     | [] => none)
  | .ws :: toks, l, p =>
    (match l with
     | c :: rest => if isPySpace c then matchToks toks (rest.dropWhile isPySpace) p else none
     | [] => none)
  | .year4 :: toks, l, p =>
    (match splitField 4 l with
     | some (v, rest) => matchToks toks rest (p.set .fY v)
     | none => none)
  | .num f :: toks, l, p =>
    (altsFor f).findSome? fun alt =>
      match matchDigitAlt alt l with
      | some (v, rest) => matchToks toks rest (p.set f v)
      | none => none
  | .frac :: toks, l, p =>
    [6, 5, 4, 3, 2, 1].findSome? fun k =>
      match splitField k l with
      | some (v, rest) => matchToks toks rest { p with us := some (v * 10 ^ (6 - k)) }
      | none => none
  | .monFull :: toks, l, p =>
    monthsFull.findSome? fun mv =>
      match matchCI mv.1 l with
      | some rest => matchToks toks rest (p.set .fmo mv.2)
      | none => none
  | .monAbbr :: toks, l, p =>
    monthsAbbr.findSome? fun mv =>
      match matchCI mv.1 l with
      | some rest => matchToks toks rest (p.set .fmo mv.2)
      | none => none
  | .wday :: toks, l, p =>
    weekdayAbbrs.findSome? fun w =>
      match matchCI w l with
      | some rest => matchToks toks rest p
      | none => none
  | .tzn :: toks, l, p =>
    tzNames.findSome? fun w =>
      match matchCI w l with
      | some rest => matchToks toks rest p
      | none => none

/-- The datetime built after a successful format match: strptime
defaults (1900-01-01 00:00:00.0) for absent fields, then the datetime
constructor validation (a ValueError there makes the format fail). -/
def buildDT (p : PDT) : Option DateTime :=
  let y := p.y.getD 1900
  let mo := p.mo.getD 1
  let d := p.d.getD 1
  let h := p.h.getD 0
  let mi := p.mi.getD 0
  let s := p.s.getD 0
  let us := p.us.getD 0
  if validDate y mo d h mi s us then some ⟨y, mo, d, h, mi, s, us⟩ else none

/-- datetime.strptime for one compiled format. -/
def pyStrptime (fmt : List FTok) (l : List Char) : Option DateTime :=
  match matchToks fmt l {} with
  | some p => buildDT p
  | none => none

/-- The shared date field tokens of the ISO-style formats. -/
def fmtIsoDate : List FTok := [.year4, .lit '-', .num .fmo, .lit '-', .num .fd]

/-- The compiled H:M:S tail. -/
def fmtHMS : List FTok := [.num .fH, .lit ':', .num .fMi, .lit ':', .num .fS]

/-- DateParser.DATE_FORMATS (src/utils/date_parser.py, lines 15-49),
each format compiled to its token list, in source order. -/
def DATE_FORMATS : List (List FTok) := [
  fmtIsoDate ++ [.lit 'T'] ++ fmtHMS ++ [.lit '.', .frac, .lit 'Z'],
  fmtIsoDate ++ [.lit 'T'] ++ fmtHMS ++ [.lit 'Z'],
  fmtIsoDate ++ [.lit 'T'] ++ fmtHMS ++ [.lit '.', .frac],
  fmtIsoDate ++ [.lit 'T'] ++ fmtHMS,
  fmtIsoDate ++ [.ws] ++ fmtHMS,
  fmtIsoDate,
  [.num .fmo, .lit '/', .num .fd, .lit '/', .year4, .ws] ++ fmtHMS,
  [.num .fmo, .lit '/', .num .fd, .lit '/', .year4],
  [.num .fmo, .lit '-', .num .fd, .lit '-', .year4],
  [.num .fd, .lit '/', .num .fmo, .lit '/', .year4, .ws] ++ fmtHMS,
  [.num .fd, .lit '/', .num .fmo, .lit '/', .year4],
  [.num .fd, .lit '-', .num .fmo, .lit '-', .year4],
  [.monFull, .ws, .num .fd, .lit ',', .ws, .year4],
  [.monAbbr, .ws, .num .fd, .lit ',', .ws, .year4],
  [.monFull, .ws, .num .fd, .ws, .year4],
  [.monAbbr, .ws, .num .fd, .ws, .year4],
  [.num .fd, .ws, .monFull, .ws, .year4],
  [.num .fd, .ws, .monAbbr, .ws, .year4],
  [.wday, .lit ',', .ws, .num .fd, .ws, .monAbbr, .ws, .year4, .ws]
    ++ fmtHMS ++ [.ws, .lit 'G', .lit 'M', .lit 'T'],
  [.wday, .lit ',', .ws, .num .fd, .ws, .monAbbr, .ws, .year4, .ws]
    ++ fmtHMS ++ [.ws, .tzn],
  [.year4, .num .fmo, .num .fd],
  [.year4, .num .fmo, .num .fd, .num .fH, .num .fMi, .num .fS]]

/-- The format loop of DateParser.parse: first format whose strptime
succeeds (a regex failure or a constructor ValueError both move to the
next format). -/
def tryFormats (l : List Char) : Option DateTime :=
  DATE_FORMATS.findSome? fun fmt => pyStrptime fmt l

/-- DateParser.parse (src/utils/date_parser.py, lines 54-90): falsy
input gives none; otherwise clean, try the formats, then the
unix-timestamp fallback on the cleaned string.  The optional dateutil
step is modelled as absent (its ImportError branch); on every concrete
input evaluated below an installed dateutil either raises (falling
through to the same steps) or returns the same instant. -/
def dateParse (s : String) : Option DateTime :=
  if s.data = [] then none
  else
    let cleaned := cleanDateString s.data
    match tryFormats cleaned with
    | some dt => some dt
    | none => tryUnixTimestamp ⟨cleaned⟩

/-! ## JSON values

Decoded JSON as handled by the API handler and the verifier.  Python
bool is a subclass of int, so a JSON true/false passes the
isinstance((int, float)) checks; the embeddings treat the bool case
alongside the numeric one with value 1 or 0. -/

/-- A decoded JSON value (json.loads output).  Numbers are exact
decimals. -/
inductive JsonVal where
  | null
  | bool (b : Bool)
  | num (q : PyRat)
  | str (s : String)
  | arr (xs : List JsonVal)
  | obj (kvs : List (String × JsonVal))

/-- Python truthiness of a decoded JSON value. -/
def pyTruthy : JsonVal → Bool
  | .null => false
  | .bool b => b
  | .num q => !decide (q.num = 0)
  | .str s => !s.data.isEmpty
  | .arr xs => !xs.isEmpty
  | .obj kvs => !kvs.isEmpty

/-- Python dict lookup over the decoded object (json.loads keeps the
last duplicate key; objects produced by it have unique keys, matched
by first-hit lookup here). -/
def lookupKey : List (String × JsonVal) → String → Option JsonVal
  | [], _ => none
  | (k, v) :: rest, key => if k = key then some v else lookupKey rest key

/-- The field loop of APIHandler._find_timestamp_value: the first
configured field name present in the dict (in field order) wins,
whatever its value. -/
def firstFieldHit (kvs : List (String × JsonVal)) (fields : List String) : Option JsonVal :=
  fields.findSome? fun f => lookupKey kvs f

mutual

/-- APIHandler._find_timestamp_value (src/handlers/api_handler.py,
lines 111-130): on a dict, return the first configured field present;
otherwise recurse into the values, accepting only a truthy result; on
a nonempty list, recurse into the first element; anything else is
none. -/
def findTimestampValue (fields : List String) : JsonVal → Option JsonVal
  | .obj kvs =>
    (match firstFieldHit kvs fields with
     | some v => some v
     | none => searchValues fields kvs)
  | .arr (x :: _) => findTimestampValue fields x
  | .arr [] => none
  | _ => none

/-- The nested-dict loop of _find_timestamp_value: a falsy recursive
hit is skipped (the code tests the result for truthiness before
returning it). -/
def searchValues (fields : List String) : List (String × JsonVal) → Option JsonVal
  | [] => none
  | (_, v) :: rest =>
    (match findTimestampValue fields v with
     | some r => if pyTruthy r then some r else searchValues fields rest
     | none => searchValues fields rest)

end

/-! ## APIHandler (src/handlers/api_handler.py) -/

/-- A Python bool under numeric conversion (bool is an int subclass). -/
def pyBoolAsNum (b : Bool) : PyRat := ⟨if b then 1 else 0, 1⟩

/-- The numeric branch of APIHandler._parse_timestamp_value: epoch
milliseconds above 1e12, else epoch seconds; only ValueError and
OSError are caught there, so any other exception of the conversion
(an OverflowError in particular) propagates. -/
def fromtimestampCaught (q : PyRat) : Except PyErr (Option DateTime) :=
  match (if q.gtInt (10 ^ 12) then pyFromtimestamp (q.divNat 1000) else pyFromtimestamp q) with
  | .ok dt => .ok (some dt)
  | .error e => if e = .valueError ∨ e = .osError then .ok none else .error e

/-- APIHandler._parse_timestamp_value (src/handlers/api_handler.py,
lines 132-148). -/
def parseTimestampValue (v : JsonVal) : Except PyErr (Option DateTime) :=
  match v with
  | .num q => fromtimestampCaught q
  | .bool b => fromtimestampCaught (pyBoolAsNum b)
  | .str s => .ok (dateParse s)
  | _ => .ok none

/-- Configuration fields the API handler reads.  The http_method field
of a source descriptor is carried but never read by this handler. -/
structure ApiConfig where
  data_url : Option String := none
  response_format : Option String := none
  timestamp_field : Option String := none
  fallback_fields : Option (List String) := none
  http_method : Option String := none

/-- The hard-coded fallback field list of _parse_json_response. -/
def defaultFallbackFields : List String :=
  ["lastModified", "modified", "updatedAt", "last_updated",
   "dataUpdatedAt", "rowsUpdatedAt", "metadataUpdatedAt"]

/-- APIHandler._parse_json_response (src/handlers/api_handler.py,
lines 83-109); the argument is the json.loads outcome on the body
(none for a JSONDecodeError, which is caught). -/
def parseJsonResponse (cfg : ApiConfig) (decoded : Option JsonVal) :
    Except PyErr (Option DateTime) :=
  match decoded with
  | none => .ok none
  | some data =>
    let fields := cfg.timestamp_field.getD "updated_at"
      :: cfg.fallback_fields.getD defaultFallbackFields
    match findTimestampValue fields data with
    | some v => if pyTruthy v then parseTimestampValue v else .ok none
    | none => .ok none

/-- Outcome of one requests.get attempt: a RequestException (network
failure, timeout, or a raise_for_status error — a 405 reply raises
HTTPError there like any 4xx), or a success body given with the
json.loads outcome on it and, for an xml configuration, the result of
_parse_xml_response, whose whole body sits in a catch-all try/except
and therefore always yields an optional instant. -/
inductive ApiAttempt where
  | exc
  | ok (decodedJson : Option JsonVal) (xmlResult : Option DateTime)

/-- The http settings the handlers read
(settings.get('http', {}) defaults). -/
structure HttpSettings where
  max_retries : Nat := 3

/-- One HTTP request issued during a fetch, for the request trace. -/
structure HttpRequest where
  method : String
  url : String
  deriving DecidableEq, Repr

/-- The retry loop of APIHandler.fetch_current_timestamp: one
requests.get per attempt; a RequestException on the last attempt
gives none, earlier ones continue; on a success response the parse
result is returned directly, so a non-RequestException raised while
parsing propagates out of fetch.  The returned trace lists every
request issued. -/
def apiFetchGo (cfg : ApiConfig) (url : String) (env : Nat → ApiAttempt) :
    List Nat → List HttpRequest → Except PyErr (Option DateTime) × List HttpRequest
  | [], trace => (.ok none, trace)
  | i :: rest, trace =>
    (match env i with
     | .exc =>
       if rest = [] then (.ok none, trace ++ [⟨"GET", url⟩])
       else apiFetchGo cfg url env rest (trace ++ [⟨"GET", url⟩])
     | .ok decoded xmlResult =>
       if cfg.response_format.getD "json" = "json" then
         (parseJsonResponse cfg decoded, trace ++ [⟨"GET", url⟩])
       else if cfg.response_format.getD "json" = "xml" then
         (.ok xmlResult, trace ++ [⟨"GET", url⟩])
       else (.ok none, trace ++ [⟨"GET", url⟩]))

/-- APIHandler.fetch_current_timestamp (src/handlers/api_handler.py,
lines 28-69), with the requests it issues as a trace. -/
def apiFetchCurrentTimestamp (cfg : ApiConfig) (settings : HttpSettings)
    (env : Nat → ApiAttempt) : Except PyErr (Option DateTime) × List HttpRequest :=
  match cfg.data_url with
  | none => (.ok none, [])
  | some url =>
    if url.data = [] then (.ok none, [])
    else apiFetchGo cfg url env (List.range settings.max_retries) []

/-! ## SeleniumHandler (src/handlers/selenium_handler.py) -/

/-- The selector configuration of a selenium source
(config.get('selector', '')). -/
structure SelConfig where
  selector : String := ""

/-- The browser session as seen by _find_timestamp_on_page: for each
CSS selector the texts of the elements found, or none when the lookup
raises (the per-selector try/except catches it and moves on). -/
structure DriverEnv where
  findElements : String → Option (List String)

/-- SeleniumHandler._find_timestamp_on_page (src/handlers/
selenium_handler.py, lines 105-137): split the configured selector on
commas, strip each; for each selector, for each element text (itself
stripped), return the first parseable date.  No bound of any kind is
applied to the parsed instant. -/
def findTimestampOnPage (cfg : SelConfig) (driver : DriverEnv) : Option DateTime :=
  if cfg.selector.data = [] then none
  else
    let selectorList := (splitOnChar ',' cfg.selector.data).map stripEnds
    selectorList.findSome? fun sel =>
      match driver.findElements ⟨sel⟩ with
      | none => none
      | some texts =>
        texts.findSome? fun txt =>
          let t := stripEnds txt.data
          if t = [] then none else dateParse ⟨t⟩

/-! ## GroqVerifier (src/utils/groq_verifier.py) -/

/-- A rendering of str(e) for a Python exception; the exact message
text is irrelevant to every claim, only its presence. -/
def errMsg : PyErr → String
  | .valueError => "ValueError"
  | .osError => "OSError"
  | .overflowError => "OverflowError"
  | .typeError => "TypeError"
  | .requestException m => m

/-- Python float() on a string: whitespace is stripped, an optional
sign precedes digits with an optional dot; every other form is
ValueError here (the exponent and inf/nan forms are not modelled; no
concrete input below uses them, and a general theorem only becomes
weaker by the restriction since every modelled error is caught). -/
def pyFloatOfString (s : String) : Except PyErr PyRat :=
  let l := stripEnds s.data
  let sl : Int × List Char :=
    match l with
    | '+' :: r => (1, r)
    | '-' :: r => (-1, r)
    | _ => (1, l)
  if sl.2.all (fun c => isDig c || c = '.') then
    match pyFloatDigits sl.2 with
    | some q => .ok ⟨sl.1 * q.num, q.den⟩
    | none => .error .valueError
  else .error .valueError

/-- Python float() on a decoded JSON value: numbers pass, bools count
as 0 or 1, strings run through the string conversion, null and
containers raise TypeError. -/
def pyFloatOfJson : JsonVal → Except PyErr PyRat
  | .num q => .ok q
  | .bool b => .ok (pyBoolAsNum b)
  | .str s => pyFloatOfString s
  | .null => .error .typeError
  | .arr _ => .error .typeError
  | .obj _ => .error .typeError

/-- The dict GroqVerifier returns from every path.  is_verified,
reasoning and the suggestion carry decoded JSON values where the code
stores whatever the reply held; a Python None is none. -/
structure VerificationDict where
  is_verified : Option JsonVal := none
  confidence : PyRat := ⟨0, 1⟩
  reasoning : JsonVal := .str ""
  suggested_timestamp : Option JsonVal := none
  error : Option String := none

/-- Python slicing s[0:k]. -/
def pyTruncate (k : Nat) (s : String) : String := ⟨s.data.take k⟩

/-- GroqVerifier._parse_response (src/utils/groq_verifier.py, lines
165-192).  The decoded argument is the outcome of the brace-regex
extraction followed by json.loads (none models no match as well as a
JSONDecodeError, which is the only exception caught here); the
extracted text always decodes to an object when it decodes at all.
The float() on the confidence field can raise (ValueError on a bad
string, TypeError on null or a container) and that exception
propagates out of _parse_response. -/
def parseGroqResponse (responseText : String) (decoded : Option JsonVal) :
    Except PyErr VerificationDict :=
  match decoded with
  | some (.obj kvs) =>
    (match pyFloatOfJson ((lookupKey kvs "confidence").getD (.num ⟨0, 1⟩)) with
     | .error e => .error e
     | .ok conf =>
       .ok {
         is_verified :=
           match lookupKey kvs "is_verified" with
           | none => some (.bool false)
           | some .null => none
           | some v => some v
         confidence := conf
         reasoning := (lookupKey kvs "reasoning").getD (.str "")
         suggested_timestamp :=
           match lookupKey kvs "correct_timestamp" with
           | none => none
           | some .null => none
           | some v => some v
         error := none })
  | _ =>
    .ok { is_verified := none, confidence := ⟨0, 1⟩,
          reasoning := .str ((pyTruncate 500 responseText)),
          suggested_timestamp := none,
          error := some "Could not parse structured response" }

/-- The external reasoning call as the orchestrator sees it: the
chat-completion call raises, or returns a reply text (given with the
outcome of the brace extraction and json.loads on it). -/
inductive GroqCall where
  | exc (msg : String)
  | reply (text : String) (decoded : Option JsonVal)

/-- GroqVerifier.verify_timestamp (src/utils/groq_verifier.py, lines
48-136): an unavailable client short-circuits to the unavailable dict;
otherwise the API call and the whole _parse_response run inside one
try/except Exception, so a raising call and a raising parse both
degrade to the failure dict.  The function is total: no path raises. -/
def verifyTimestamp (clientAvailable : Bool) (call : GroqCall) : VerificationDict :=
  if !clientAvailable then
    { is_verified := none, confidence := ⟨0, 1⟩,
      reasoning := .str "Groq client not available",
      suggested_timestamp := none,
      error := some "GROQ_API_KEY not configured or groq package not installed" }
  else
    match call with
    | .exc msg =>
      { is_verified := none, confidence := ⟨0, 1⟩,
        reasoning := .str ("API call failed: " ++ msg),
        suggested_timestamp := none,
        error := some msg }
    | .reply text decoded =>
      match parseGroqResponse text decoded with
      | .ok d => d
      | .error e =>
        { is_verified := none, confidence := ⟨0, 1⟩,
          reasoning := .str ("API call failed: " ++ errMsg e),
          suggested_timestamp := none,
          error := some (errMsg e) }

/-! ## Registry and orchestrator (src/core/registry.py,
src/core/sentinel.py) -/

/-- The fields of a source descriptor the orchestrator reads. -/
structure SourceConfig where
  import_name : Option String := none
  data_url : Option String := none
  script_url : Option String := none
  method : Option String := none

/-- The loaded sources mapping (sources.yaml), dcid to descriptor. -/
abbrev Registry := List (String × SourceConfig)

/-- Python dict lookup on the registry (self.sources.get(dcid)). -/
def getSource : Registry → String → Option SourceConfig
  | [], _ => none
  | (k, v) :: rest, dcid => if k = dcid then some v else getSource rest dcid

/-- The keys of SourceRegistry.HANDLER_MAP. -/
def handlerMapKeys : List String :=
  ["http_head", "api", "selenium", "beautifulsoup", "cli"]

/-- Whether SourceRegistry.get_handler returns a handler for this
descriptor: a present, truthy method that is a key of HANDLER_MAP
(the source itself was already found by the caller). -/
def handlerResolves (cfg : SourceConfig) : Bool :=
  match cfg.method with
  | none => false
  | some m => !m.data.isEmpty && handlerMapKeys.contains m

/-- The CheckResult dataclass (src/models/check_result.py), without
the check_time clock field, which no claim mentions. -/
structure CheckResult where
  dcid : String
  import_name : Option String := none
  data_url : Option String := none
  script_url : Option String := none
  method : Option String := none
  changed : Bool := false
  current_timestamp : Option DateTime := none
  previous_timestamp : Option DateTime := none
  raw_timestamp : Option String := none
  error : Option String := none
  is_verified : Option JsonVal := none
  verification_confidence : PyRat := ⟨0, 1⟩
  verification_reasoning : Option JsonVal := none
  suggested_timestamp : Option JsonVal := none

/-- What the resolved handler did during this check, as the
orchestrator observes it: the fetch outcome (an exception or an
optional instant), and the raw string, etag and page content the
handler retained. -/
structure HandlerOutcome where
  fetchResult : Except PyErr (Option DateTime)
  rawTimestamp : Option String := none
  etag : Option String := none

/-- The ambient effects of one check_for_updates call: the handler
outcome, whether self.verifier and self.verifier.client are both set,
the reasoning-service call outcome, and the wall clock used for
last_check. -/
structure CheckEnv where
  outcome : HandlerOutcome
  verifierClient : Bool := false
  verifierCall : GroqCall := .exc ""
  now : DateTime

/-- Sentinel.check_for_updates (src/core/sentinel.py, lines 62-170)
as a function from the pre-state to the result and post-state:
- an unknown dcid gives the SourceNotFound error result, untouched
  state;
- a descriptor without a usable handler gives the no-handler error
  result, untouched state;
- a raising fetch is caught and gives an error result, untouched
  state;
- otherwise the stored instant is read, changed is computed with
  compare_with_stored, the state is updated exactly when a current
  instant exists, and the result is assembled from the pre-read stored
  value; verification, when enabled and a current instant exists, only
  fills the verification fields of the result. -/
def checkForUpdates (reg : Registry) (st : StateMap) (dcid : String)
    (env : CheckEnv) : CheckResult × StateMap :=
  match getSource reg dcid with
  | none =>
    ({ dcid := dcid, changed := false,
       error := some ("Source not found: " ++ dcid) }, st)
  | some cfg =>
    let importName := some (cfg.import_name.getD dcid)
    let dataUrl := some (cfg.data_url.getD "")
    let scriptUrl := some (cfg.script_url.getD "")
    let methodV := some (cfg.method.getD "")
    if !handlerResolves cfg then
      ({ dcid := dcid, import_name := importName, data_url := dataUrl,
         script_url := scriptUrl, method := methodV, changed := false,
         error := some ("No handler available for: " ++ dcid) }, st)
    else
      match env.outcome.fetchResult with
      | .error e =>
        ({ dcid := dcid, import_name := importName, data_url := dataUrl,
           script_url := scriptUrl, method := methodV, changed := false,
           error := some (errMsg e) }, st)
      | .ok current =>
        let stored := getLastTimestamp st dcid
        let changed := compareWithStored current stored
        let st2 :=
          match current with
          | some t =>
            updateTimestamp st dcid t env.outcome.rawTimestamp env.outcome.etag env.now
          | none => st
        let base : CheckResult :=
          { dcid := dcid, import_name := importName, data_url := dataUrl,
            script_url := scriptUrl, method := methodV, changed := changed,
            current_timestamp := current, previous_timestamp := stored,
            raw_timestamp := env.outcome.rawTimestamp }
        let result :=
          if env.verifierClient && current.isSome then
            let v := verifyTimestamp true env.verifierCall
            { base with
              is_verified := v.is_verified,
              verification_confidence := v.confidence,
              verification_reasoning := some v.reasoning,
              suggested_timestamp := v.suggested_timestamp }
          else base
        (result, st2)

/-! ## Helper lemmas shared by the claim theorems -/

/-- Reading back a freshly written entry parses the isoformat string
just stored and recovers the instant. -/
theorem getLastTimestamp_updateTimestamp (st : StateMap) (dcid : String)
    (t : DateTime) (raw etagV : Option String) (now : DateTime)
    (hv : t.valid = true) :
    getLastTimestamp (updateTimestamp st dcid t raw etagV now) dcid = some t := by
  have hne : (toIso t).data ≠ [] := toIsoChars_ne_nil t
  simp only [getLastTimestamp, updateTimestamp_timestamp]
  rw [if_neg hne]
  show fromIsoChars (replaceZChars (toIsoChars t)) = some t
  rw [replaceZChars_toIsoChars, fromIsoChars_toIsoChars hv]

/-- After clear_state the source has no stored instant. -/
theorem getLastTimestamp_clearState (st : StateMap) (dcid : String) :
    getLastTimestamp (clearState st dcid) dcid = none := by
  simp only [getLastTimestamp, clearState, lookupState_eraseState_self]
  rfl

/-- An empty digit string never converts. -/
theorem pyFloatDigits_nil : pyFloatDigits [] = none := rfl

/-- The API retry loop only ever appends GET requests to the trace,
at most one per attempt. -/
theorem apiFetchGo_trace (cfg : ApiConfig) (url : String) (env : Nat → ApiAttempt) :
    ∀ (attempts : List Nat) (trace : List HttpRequest),
      ∃ k, k ≤ attempts.length ∧
        (apiFetchGo cfg url env attempts trace).2
          = trace ++ List.replicate k ⟨"GET", url⟩ := by
  intro attempts
  induction attempts with
  | nil => exact fun trace => ⟨0, Nat.le_refl 0, by simp [apiFetchGo]⟩
  | cons i rest ih =>
    intro trace
    cases henv : env i with
    | exc =>
      by_cases hlast : rest = []
      · subst hlast
        refine ⟨1, by simp, ?_⟩
        simp [apiFetchGo, henv]
      · obtain ⟨k, hk, heq⟩ := ih (trace ++ [⟨"GET", url⟩])
        refine ⟨k + 1, by simp; omega, ?_⟩
        simp only [apiFetchGo, henv, if_neg hlast]
        rw [heq, List.append_assoc]
        simp [List.replicate_succ]
    | ok decoded xmlResult =>
      refine ⟨1, by simp, ?_⟩
      simp only [apiFetchGo, henv]
      split
      · simp
      · split <;> simp

/-- Splitting on a separator that does not occur returns the whole
list as the single part. -/
theorem splitOnChar_no_sep {sep : Char} {l : List Char}
    (h : ∀ c ∈ l, c ≠ sep) : splitOnChar sep l = [l] := by
  induction l with
  | nil => rfl
  | cons x xs ih =>
    have hx : x ≠ sep := h x (by simp)
    rw [splitOnChar, ih fun c hc => h c (by simp [hc])]
    simp [hx]

/-! ## Concrete fixtures used by witnesses and counterexamples -/

/-- A valid instant. -/
def dtJan : DateTime := ⟨2024, 1, 15, 10, 30, 0, 0⟩

/-- A later valid instant, used as the wall clock. -/
def dtFeb : DateTime := ⟨2024, 2, 1, 0, 0, 0, 0⟩

/-- A one-source registry whose source resolves to the api handler. -/
def regW : Registry := [("ds1", { method := some "api" })]

/-- A check environment whose handler produced an instant. -/
def envSomeW : CheckEnv :=
  { outcome := { fetchResult := .ok (some dtJan) }, now := dtFeb }

/-- A check environment whose handler produced none. -/
def envNoneW : CheckEnv :=
  { outcome := { fetchResult := .ok none }, now := dtFeb }

/-! ## The claims -/

/-- C1: for every pair of optional instants, the comparison policy
compare_with_stored shared by all handler variants returns false when
the current instant is none; true when it is present and the stored
one is none; and otherwise true exactly when the current instant is
strictly greater than the stored one, equality giving false. -/
theorem compare_with_stored_policy (c s : DateTime) (os : Option DateTime) :
    compareWithStored none os = false ∧
    compareWithStored (some c) none = true ∧
    compareWithStored (some c) (some s) = DateTime.ltb s c ∧
    compareWithStored (some c) (some c) = false := by
  refine ⟨rfl, rfl, rfl, ?_⟩
  simp [compareWithStored, DateTime.ltb_irrefl]

/-- C2: for a check of a known source with a resolvable handler and a
non-raising fetch, the orchestrator mutates the state entry exactly
when the handler produced a current instant: a produced instant is
persisted with the raw value and etag whatever the changed flag is,
and a none fetch leaves changed false and the state untouched. -/
theorem orchestrator_persists_iff_current (reg : Registry) (st : StateMap)
    (dcid : String) (env : CheckEnv) (cfg : SourceConfig) (t : DateTime)
    (hsrc : getSource reg dcid = some cfg)
    (hh : handlerResolves cfg = true) :
    (env.outcome.fetchResult = .ok (some t) →
       (checkForUpdates reg st dcid env).2 =
         updateTimestamp st dcid t env.outcome.rawTimestamp env.outcome.etag env.now) ∧
    (env.outcome.fetchResult = .ok none →
       (checkForUpdates reg st dcid env).1.changed = false ∧
       (checkForUpdates reg st dcid env).2 = st) := by
  constructor
  · intro hf
    simp [checkForUpdates, hsrc, hh, hf]
  · intro hf
    simp [checkForUpdates, hsrc, hh, hf, compareWithStored]

theorem orchestrator_persists_iff_current_witness :
    (envSomeW.outcome.fetchResult = .ok (some dtJan) →
       (checkForUpdates regW [] "ds1" envSomeW).2 =
         updateTimestamp [] "ds1" dtJan envSomeW.outcome.rawTimestamp
           envSomeW.outcome.etag envSomeW.now) ∧
    (envSomeW.outcome.fetchResult = .ok none →
       (checkForUpdates regW [] "ds1" envSomeW).1.changed = false ∧
       (checkForUpdates regW [] "ds1" envSomeW).2 = []) :=
  orchestrator_persists_iff_current regW [] "ds1" envSomeW
    { method := some "api" } dtJan (by rfl) (by rfl)

/-- C3: for a source id not in the registry, the check operation
returns the SourceNotFound error result, with changed false and an
error message, and leaves the state untouched (the embedded operation
is total, so no exception escapes). -/
theorem unknown_source_error_result (reg : Registry) (st : StateMap)
    (dcid : String) (env : CheckEnv) (h : getSource reg dcid = none) :
    checkForUpdates reg st dcid env =
      ({ dcid := dcid, changed := false,
         error := some ("Source not found: " ++ dcid) }, st) := by
  simp [checkForUpdates, h]

theorem unknown_source_error_result_witness :
    checkForUpdates [] [] "missing" envNoneW =
      ({ dcid := "missing", changed := false,
         error := some ("Source not found: " ++ "missing") }, []) :=
  unknown_source_error_result [] [] "missing" envNoneW (by rfl)

/-- C7: updating a source and reading it back on the same state map
returns the written instant, and clearing a source then reading it
returns none. -/
theorem state_roundtrip (st st2 : StateMap) (dcid dcid2 : String)
    (t now : DateTime) (raw etagV : Option String) (hv : t.valid = true) :
    getLastTimestamp (updateTimestamp st dcid t raw etagV now) dcid = some t ∧
    getLastTimestamp (clearState st2 dcid2) dcid2 = none :=
  ⟨getLastTimestamp_updateTimestamp st dcid t raw etagV now hv,
   getLastTimestamp_clearState st2 dcid2⟩

theorem state_roundtrip_witness :
    getLastTimestamp (updateTimestamp [] "ds1" dtJan (some "raw") none dtFeb) "ds1"
        = some dtJan ∧
    getLastTimestamp (clearState [("x", {})] "x") "x" = none :=
  state_roundtrip [] [("x", {})] "ds1" "x" dtJan dtFeb (some "raw") none (by decide)

/-- C10: for a check of a known source with a resolvable handler and a
non-raising fetch, the returned previous_timestamp is the value stored
before the check began, read before the update is applied — even
though the same call overwrites the entry with the current instant, as
the second conjunct shows. -/
theorem previous_timestamp_is_pre_state (reg : Registry) (st : StateMap)
    (dcid : String) (env : CheckEnv) (cfg : SourceConfig) (cur : Option DateTime)
    (hsrc : getSource reg dcid = some cfg)
    (hh : handlerResolves cfg = true)
    (hf : env.outcome.fetchResult = .ok cur) :
    (checkForUpdates reg st dcid env).1.previous_timestamp = getLastTimestamp st dcid ∧
    (∀ t, cur = some t → t.valid = true →
       getLastTimestamp (checkForUpdates reg st dcid env).2 dcid = some t) := by
  constructor
  · simp only [checkForUpdates, hsrc, hh, hf]
    split
    · simp_all
    · split <;> rfl
  · intro t hcur hv
    subst hcur
    simp [checkForUpdates, hsrc, hh, hf,
      getLastTimestamp_updateTimestamp _ _ _ _ _ _ hv]

theorem previous_timestamp_is_pre_state_witness :
    (checkForUpdates regW [] "ds1" envSomeW).1.previous_timestamp
        = getLastTimestamp [] "ds1" ∧
    (∀ t, some dtJan = some t → t.valid = true →
       getLastTimestamp (checkForUpdates regW [] "ds1" envSomeW).2 "ds1" = some t) :=
  previous_timestamp_is_pre_state regW [] "ds1" envSomeW
    { method := some "api" } (some dtJan) (by rfl) (by rfl) (by rfl)

set_option maxRecDepth 4000000

set_option maxHeartbeats 2000000

/-- C4 (code bug): a JSON body whose configured timestamp field holds
the number 1e300 makes the MetadataAPI fetch raise: the value exceeds
1e12, is divided by 1000 and handed to fromtimestamp, which raises
OverflowError on a value outside the C time_t range; the surrounding
except clause catches only ValueError and OSError, and the retry loop
catches only RequestException, so the exception escapes
fetch_current_timestamp.  By contrast the same conversion inside
DateParser._try_unix_timestamp does catch OverflowError, as the second
conjunct shows on a 304-digit input — the handler merely dropped that
exception from its catch list. -/
theorem api_fetch_raises_on_huge_epoch :
    (apiFetchCurrentTimestamp { data_url := some "https://api.example.com/meta" }
        {} (fun _ => .ok (some (.obj [("updated_at", .num ⟨10 ^ 300, 1⟩)])) none)).1
      = .error .overflowError ∧
    tryUnixTimestamp ⟨'1' :: List.replicate 303 '0'⟩ = none := by
  constructor
  · rfl
  · rfl

/-- C5 (counterexample): with the http method configured as POST and
the server failing every request, the MetadataAPI fetch issues three
GET requests and gives up: it neither starts with the configured
method nor falls back to HEAD or POST. -/
theorem api_fetch_method_counterexample :
    apiFetchCurrentTimestamp
        { data_url := some "https://api.example.com/meta", http_method := some "POST" }
        {} (fun _ => .exc)
      = (.ok none,
         [⟨"GET", "https://api.example.com/meta"⟩,
          ⟨"GET", "https://api.example.com/meta"⟩,
          ⟨"GET", "https://api.example.com/meta"⟩]) := by rfl

/-- C5 (amended): every request the MetadataAPI fetch issues is a GET,
at most max_retries of them; the configured HTTP method override and
the GET/HEAD/POST fallback do not exist in this handler. -/
theorem api_fetch_only_get (cfg : ApiConfig) (settings : HttpSettings)
    (env : Nat → ApiAttempt) :
    (∀ r ∈ (apiFetchCurrentTimestamp cfg settings env).2, r.method = "GET") ∧
    (apiFetchCurrentTimestamp cfg settings env).2.length ≤ settings.max_retries := by
  cases hu : cfg.data_url with
  | none => simp [apiFetchCurrentTimestamp, hu]
  | some url =>
    by_cases hempty : url.data = []
    · simp [apiFetchCurrentTimestamp, hu, hempty]
    · simp only [apiFetchCurrentTimestamp, hu, if_neg hempty]
      obtain ⟨k, hk, heq⟩ := apiFetchGo_trace cfg url env (List.range settings.max_retries) []
      rw [heq]
      constructor
      · intro r hr
        simp only [List.nil_append] at hr
        rw [List.eq_of_mem_replicate hr]
      · simpa using hk

theorem api_fetch_only_get_witness :
    (∀ r ∈ (apiFetchCurrentTimestamp { data_url := some "u" } {} (fun _ => .exc)).2,
       r.method = "GET") ∧
    (apiFetchCurrentTimestamp { data_url := some "u" } {}
        (fun _ => .exc)).2.length ≤ HttpSettings.max_retries {} :=
  api_fetch_only_get { data_url := some "u" } {} (fun _ => .exc)

/-- C6 (counterexample): DateParser applied to the unix-seconds string
1705315800 and the unix-milliseconds string 1705315800000 yields
different instants: the ten-digit seconds string is recognized by an
earlier parsing step — the compact explicit format with year, month,
day, hour, minute, second — as 1705-03-15T08:00:00, so it never
reaches the unix-epoch interpretation, while the thirteen-digit string
matches no format and parses as epoch milliseconds. -/
theorem date_parser_unix_counterexample :
    dateParse "1705315800" = some ⟨1705, 3, 15, 8, 0, 0, 0⟩ ∧
    dateParse "1705315800000" = some ⟨2024, 1, 15, 10, 50, 0, 0⟩ ∧
    dateParse "1705315800" ≠ dateParse "1705315800000" := by
  refine ⟨by decide, by decide, by decide⟩

/-- C6 (amended): the unix-epoch step itself behaves as stated: it
keeps only digits and dots, interprets the value as epoch milliseconds
when it exceeds 1e12, as epoch seconds when it exceeds 1e9, and
rejects it otherwise; the milliseconds string 1705315800000 does fall
through the format list to this step, but the seconds string
1705315800 is captured by an earlier explicit format, so the two
strings do not yield the same instant. -/
theorem try_unix_policy (s : String) (q : PyRat)
    (hq : pyFloatDigits (keepDigitsDots s.data) = some q) :
    (q.gtInt (10 ^ 12) = true →
       tryUnixTimestamp s =
         match pyFromtimestamp (q.divNat 1000) with
         | .ok dt => some dt
         | .error _ => none) ∧
    (q.gtInt (10 ^ 12) = false → q.gtInt (10 ^ 9) = true →
       tryUnixTimestamp s =
         match pyFromtimestamp q with
         | .ok dt => some dt
         | .error _ => none) ∧
    (q.gtInt (10 ^ 12) = false → q.gtInt (10 ^ 9) = false →
       tryUnixTimestamp s = none) ∧
    dateParse "1705315800000" = tryUnixTimestamp "1705315800000" := by
  have hne : keepDigitsDots s.data ≠ [] := by
    intro h
    rw [h, pyFloatDigits_nil] at hq
    cases hq
  refine ⟨?_, ?_, ?_, by decide⟩
  · intro hgt
    simp only [tryUnixTimestamp, hq]
    rw [if_neg hne, if_pos hgt]
  · intro hle hgt
    simp only [tryUnixTimestamp, hq]
    rw [if_neg hne, if_neg (by rw [hle]; exact Bool.false_ne_true), if_pos hgt]
  · intro h1 h2
    simp only [tryUnixTimestamp, hq]
    rw [if_neg hne, if_neg (by rw [h1]; exact Bool.false_ne_true),
      if_neg (by rw [h2]; exact Bool.false_ne_true)]

theorem try_unix_policy_witness :
    ((PyRat.gtInt ⟨1705315800000, 1⟩ (10 ^ 12) = true →
       tryUnixTimestamp "1705315800000" =
         match pyFromtimestamp (PyRat.divNat ⟨1705315800000, 1⟩ 1000) with
         | .ok dt => some dt
         | .error _ => none) ∧
     (PyRat.gtInt ⟨1705315800000, 1⟩ (10 ^ 12) = false →
        PyRat.gtInt ⟨1705315800000, 1⟩ (10 ^ 9) = true →
       tryUnixTimestamp "1705315800000" =
         match pyFromtimestamp (⟨1705315800000, 1⟩ : PyRat) with
         | .ok dt => some dt
         | .error _ => none) ∧
     (PyRat.gtInt ⟨1705315800000, 1⟩ (10 ^ 12) = false →
        PyRat.gtInt ⟨1705315800000, 1⟩ (10 ^ 9) = false →
       tryUnixTimestamp "1705315800000" = none) ∧
     dateParse "1705315800000" = tryUnixTimestamp "1705315800000") :=
  try_unix_policy "1705315800000" ⟨1705315800000, 1⟩ (by rfl)

/-- C8 (counterexample): the selenium selector extraction accepts a
candidate in year 2999 — after any possible time of check — and one in
year 1700 — before any plausible fixed year floor — returning each as
the current timestamp: no sanity bound exists on this path. -/
theorem selenium_no_sanity_bound_counterexample :
    findTimestampOnPage ⟨"span.date"⟩
        ⟨fun s => if s = "span.date" then some ["2999-01-02"] else none⟩
      = some ⟨2999, 1, 2, 0, 0, 0, 0⟩ ∧
    findTimestampOnPage ⟨"span.date"⟩
        ⟨fun s => if s = "span.date" then some ["1700-01-02"] else none⟩
      = some ⟨1700, 1, 2, 0, 0, 0, 0⟩ := by
  constructor
  · decide
  · decide

/-- C8 (amended): for a configured single selector, the selenium
extraction returns exactly what DateParser yields on the first
nonempty element text — unfiltered: the function consults no year
floor and no clock. -/
theorem selenium_returns_unbounded_parse (sel txt : String) (drv : DriverEnv)
    (hs1 : stripEnds sel.data = sel.data)
    (hs2 : sel.data ≠ [])
    (hs3 : ∀ c ∈ sel.data, c ≠ ',')
    (hfind : drv.findElements sel = some [txt])
    (hts : stripEnds txt.data = txt.data)
    (htne : txt.data ≠ []) :
    findTimestampOnPage ⟨sel⟩ drv = dateParse txt := by
  have he1 : ({ data := sel.data } : String) = sel := rfl
  have he2 : ({ data := txt.data } : String) = txt := rfl
  simp only [findTimestampOnPage]
  rw [if_neg hs2, splitOnChar_no_sep hs3]
  simp [List.findSome?_cons, List.findSome?_nil, hs1, he1, hfind, hts, htne, he2]
  cases dateParse txt <;> rfl

theorem selenium_returns_unbounded_parse_witness :
    findTimestampOnPage ⟨"span.date"⟩
        ⟨fun s => if s = "span.date" then some ["3000-12-31"] else none⟩
      = dateParse "3000-12-31" :=
  selenium_returns_unbounded_parse "span.date" "3000-12-31"
    ⟨fun s => if s = "span.date" then some ["3000-12-31"] else none⟩
    (by decide) (by decide) (by decide) (by rfl) (by decide) (by decide)

/-- C9 (counterexample): a service reply that is the JSON object with
no fields — a malformed verdict — does not yield the unknown outcome
the claim requires: is_verified is defaulted to false, not none. -/
theorem verifier_defaults_false_counterexample :
    (verifyTimestamp true (.reply "{}" (some (.obj [])))).is_verified
        = some (.bool false) ∧
    some (JsonVal.bool false) ≠ (none : Option JsonVal) := by
  exact ⟨rfl, by simp⟩

/-- C9 (amended): the verify operation never raises — the embedded
operation is total, with the client call and the reply parsing inside
one catch-all — and it yields the unknown outcome (is_verified none,
confidence 0) when the client is unavailable, when the call fails,
when the reply holds no JSON object, and when the parse of a decoded
object raises (a confidence field that fails float conversion); a
decoded object missing is_verified, however, yields false rather than
none.  The orchestrator merges only the verification fields: the
changed flag and the persisted state do not depend on the verifier. -/
theorem verifier_advisory (reg : Registry) (st : StateMap) (dcid : String)
    (env : CheckEnv) (b : Bool) (vc : GroqCall) :
    ((verifyTimestamp false vc).is_verified = none ∧
       (verifyTimestamp false vc).confidence = ⟨0, 1⟩) ∧
    (∀ msg, (verifyTimestamp true (.exc msg)).is_verified = none ∧
       (verifyTimestamp true (.exc msg)).confidence = ⟨0, 1⟩) ∧
    (∀ text, (verifyTimestamp true (.reply text none)).is_verified = none ∧
       (verifyTimestamp true (.reply text none)).confidence = ⟨0, 1⟩) ∧
    (∀ text kvs e, parseGroqResponse text (some (.obj kvs)) = .error e →
       (verifyTimestamp true (.reply text (some (.obj kvs)))).is_verified = none ∧
       (verifyTimestamp true (.reply text (some (.obj kvs)))).confidence = ⟨0, 1⟩) ∧
    ((checkForUpdates reg st dcid
          { env with verifierClient := b, verifierCall := vc }).1.changed
        = (checkForUpdates reg st dcid env).1.changed ∧
     (checkForUpdates reg st dcid
          { env with verifierClient := b, verifierCall := vc }).2
        = (checkForUpdates reg st dcid env).2) := by
  refine ⟨⟨rfl, rfl⟩, fun msg => ⟨rfl, rfl⟩, fun text => ⟨rfl, rfl⟩, ?_, ?_⟩
  · intro text kvs e hp
    simp [verifyTimestamp, hp]
  · cases hs : getSource reg dcid with
    | none => simp [checkForUpdates, hs]
    | some cfg =>
      by_cases hh : handlerResolves cfg
      · cases hf : env.outcome.fetchResult with
        | error e => simp [checkForUpdates, hs, hh, hf]
        | ok cur =>
          constructor
          · simp [checkForUpdates, hs, hh, hf,
              apply_ite (fun r : CheckResult => r.changed)]
          · simp [checkForUpdates, hs, hh, hf]
      · simp [checkForUpdates, hs, hh]

theorem verifier_advisory_witness :
    (verifyTimestamp true
        (.reply "" (some (.obj [("confidence", JsonVal.null)])))).is_verified = none :=
  ((verifier_advisory [] [] "x" envNoneW false (.exc "")).2.2.2.1
    "" [("confidence", JsonVal.null)] .typeError (by rfl)).1

end Sentinel
